import Mathlib

/-!
Shallow embedding of the durable local buffer and cloud-replication engine of
HomeGuard (src/src/db_logger.py, class DatabaseLogger), together with proofs
about the claims of its specification.

The local SQLite table sensor_data is a list of records ordered as inserted;
the AUTOINCREMENT primary key is modelled by the persisted counter seq, which
holds the largest id ever assigned (SQLite persists this in sqlite_sequence,
so it survives DELETEs and process restarts).  The sync_state row
last_synced_id is a plain Nat.  The remote NEON table is a list of rows; its
natural-key unique constraint is on the timestamp column.  Python exceptions
are modelled with an Except monad over an explicit exception type, and the
try/except blocks of the source with an explicit handler combinator.
-/

namespace HomeGuard

/-- Embeds a Python datetime value (as produced by datetime.utcnow and
compared through its isoformat string).  The field order year, month, day,
hour, minute, second, usec is the ISO-8601 significance order, so the
lexicographic comparison of isoformat strings performed by the SQL query
`ts_iso < ?` coincides with comparison of `key` below for in-range fields. -/
structure DateTime where
  year : Nat
  month : Nat
  day : Nat
  hour : Nat
  minute : Nat
  second : Nat
  usec : Nat
deriving DecidableEq, Repr

/-- Injective linearisation of a DateTime with in-range fields
(month ≤ 12 < 16, day ≤ 31 < 32, hour < 24 ≤ 32, minute, second < 60 ≤ 64,
usec < 10^6 ≤ 2^20); comparison of keys is exactly the comparison of
isoformat strings used by the source SQL. -/
def DateTime.key (t : DateTime) : Nat :=
  (((((t.year * 16 + t.month) * 32 + t.day) * 32 + t.hour) * 64 + t.minute) * 64 + t.second)
    * 1048576 + t.usec

/-- Embeds the column values passed to log_sensor_data
(db_logger.py lines 86-87): temp_c, humidity_pct (nullable REALs, kept
opaque as optional integers — no arithmetic is ever performed on them),
motion, fan_on, light_on (stored as 0/1 INTEGERs), mode, image_path. -/
structure SensorValues where
  tempC : Option Int
  humidityPct : Option Int
  motion : Nat
  fanOn : Nat
  lightOn : Nat
  mode : String
  imagePath : Option String
deriving DecidableEq, Repr

/-- Embeds one row of the local sensor_data table
(db_logger.py lines 38-51): id (AUTOINCREMENT primary key), ts_iso,
payload columns, and the synced flag (INTEGER DEFAULT 0, here a Bool). -/
structure Record where
  id : Nat
  ts : DateTime
  vals : SensorValues
  synced : Bool
deriving DecidableEq, Repr

/-- Embeds one row of the remote NEON sensor_data table as inserted by
sync_to_cloud (db_logger.py lines 163-167): same columns but no local id,
and motion, fan_on, light_on converted to booleans (lines 160-162). -/
structure RemoteRow where
  ts : DateTime
  tempC : Option Int
  humidityPct : Option Int
  motion : Bool
  fanOn : Bool
  lightOn : Bool
  mode : String
  imagePath : Option String
deriving DecidableEq, Repr

/-- Conversion performed by the loop body of sync_to_cloud
(db_logger.py lines 157-167): `motion = True if motion == 1 else False`
and likewise for fan_on and light_on. -/
def toRemoteRow (r : Record) : RemoteRow :=
  ⟨r.ts, r.vals.tempC, r.vals.humidityPct, r.vals.motion == 1, r.vals.fanOn == 1,
    r.vals.lightOn == 1, r.vals.mode, r.vals.imagePath⟩

/-- Persisted state of the local SQLite database plus the configuration flag:
records is the sensor_data table in insertion order, seq the AUTOINCREMENT
sequence (largest id ever assigned, persisted in sqlite_sequence),
lastSyncedId the sync_state row, and neon whether a NEON connection string
was configured (db_logger.py line 14). -/
structure StoreState where
  records : List Record
  seq : Nat
  lastSyncedId : Nat
  neon : Bool
deriving DecidableEq, Repr

/-- Committed contents of the remote NEON sensor_data table. -/
structure RemoteState where
  rows : List RemoteRow
deriving DecidableEq, Repr

/-- Exceptions raised by the modelled code paths.  All of them derive from
Python Exception, so `except Exception` catches each of them. -/
inductive PyExc where
  | sqliteOperational
  | psycopgOperational
  | valueError
deriving DecidableEq, Repr

/-- Embeds a Python try/except: if the body raises an exception matched by
one of the except clauses, the fallback value of that clause is returned;
an unmatched exception propagates to the caller. -/
def pyTry {α : Type} (handled : PyExc → Bool) (body : Except PyExc α) (fb : α) :
    Except PyExc α :=
  match body with
  | Except.ok a => Except.ok a
  | Except.error e => if handled e then Except.ok fb else Except.error e

/-- Observes the value a Python caller sees when the call returns normally;
the fallback is only used when an exception would propagate (which the
theorems below prove never happens for the public operations). -/
def runCall {α : Type} (c : Except PyExc α) (fb : α) : α :=
  match c with
  | Except.ok a => a
  | Except.error _ => fb

/-- All exceptions modelled here derive from Exception, which is what the
blanket `except Exception` clauses of the source catch. -/
def catchesException : PyExc → Bool := fun _ => true

/-- Embeds a Python try/except around a body with durable side effects:
the body yields its control outcome together with the durable state at the
moment control leaves the block (an exception does not undo effects that
were already committed durably).  A matched exception yields the fallback
value over that state; an unmatched one propagates. -/
def pyTryState {α σ : Type} (handled : PyExc → Bool) (body : Except PyExc α × σ)
    (fb : α) : Except PyExc (α × σ) :=
  match body.1 with
  | Except.ok a => Except.ok (a, body.2)
  | Except.error e => if handled e then Except.ok (fb, body.2) else Except.error e

/-- Connectivity behaviour of the remote NEON database during one
sync_to_cloud call: online, unreachable at connect time
(psycopg2.connect raises OperationalError, line 150), the connection
dropping at the j-th per-record INSERT, or dropping at the final commit
(line 177). -/
inductive ConnMode where
  | online
  | offline
  | failAtRecord (j : Nat)
  | failAtCommit
deriving DecidableEq, Repr

/-- Insertion step of an insertion sort by ascending id, embedding the
`ORDER BY id ASC` of the SELECT in sync_to_cloud (line 139). -/
def insertById (r : Record) : List Record → List Record
  | [] => [r]
  | x :: xs => if r.id ≤ x.id then r :: x :: xs else x :: insertById r xs

/-- Sort by ascending id, embedding `ORDER BY id ASC`. -/
def sortById : List Record → List Record
  | [] => []
  | x :: xs => insertById x (sortById xs)

/-- Embeds the SELECT of sync_to_cloud (db_logger.py lines 135-141):
records WHERE synced = 0 ORDER BY id ASC LIMIT limit (the source uses
LIMIT 100).  This is the fetchPending operation of the specification. -/
def fetchPending (st : StoreState) (limit : Nat) : List Record :=
  (sortById (st.records.filter (fun r => !r.synced))).take limit

/-- Embeds `SELECT COUNT(*) FROM sensor_data WHERE synced = 0`
(db_logger.py line 232). -/
def unsyncedCount (st : StoreState) : Nat :=
  (st.records.filter (fun r => !r.synced)).length

/-- Flag update applied to a single row by the UPDATE of sync_to_cloud
(lines 184-188): SET synced = 1 WHERE id IN ids. -/
def markOne (ids : List Nat) (r : Record) : Record :=
  if r.id ∈ ids then { r with synced := true } else r

/-- Embeds the UPDATE of sync_to_cloud (lines 184-188) on the whole table. -/
def markIds (l : List Record) (ids : List Nat) : List Record :=
  l.map (markOne ids)

/-- Accumulator of the per-record loop of sync_to_cloud (lines 153-175):
buffer holds the INSERTs of the currently open remote transaction (cleared
by neon_conn.rollback), syncedIds the synced_ids list, count the
synced_count counter. -/
structure LoopAcc where
  buffer : List RemoteRow
  syncedIds : List Nat
  count : Nat
deriving DecidableEq, Repr

/-- Embeds the per-record loop of sync_to_cloud (db_logger.py lines
156-175).  keys are the natural keys (timestamps) already committed
remotely; a duplicate key -- against committed rows or rows of the open
transaction -- raises IntegrityError, whose handler (lines 172-175) calls
neon_conn.rollback(), discarding the open transaction buffer, and still
appends the record id to synced_ids.  A connection drop at record j makes
the INSERT raise OperationalError, which propagates out of the loop
(modelled as none). -/
def runBatch (keys : List DateTime) (conn : ConnMode) :
    Nat → LoopAcc → List Record → Option LoopAcc
  | _, acc, [] => some acc
  | i, acc, r :: rs =>
    if conn = ConnMode.failAtRecord i then none
    else if r.ts ∈ keys ∨ r.ts ∈ acc.buffer.map RemoteRow.ts then
      runBatch keys conn (i + 1) ⟨[], acc.syncedIds ++ [r.id], acc.count⟩ rs
    else
      runBatch keys conn (i + 1)
        ⟨acc.buffer ++ [toRemoteRow r], acc.syncedIds ++ [r.id], acc.count + 1⟩ rs

/-- Embeds the try block of sync_to_cloud (db_logger.py lines 119-200),
returning its control outcome together with the durable local and remote
states at the moment control leaves the block.  In order: early return
when no NEON connection string is configured (line 124), SELECT of the
pending batch (possibly raising sqlite OperationalError, modelled by the
localFail oracle), early return when the batch is empty (line 145),
psycopg2.connect (raising OperationalError when offline), the per-record
loop, the remote commit (line 177, raising OperationalError when the
connection drops there; durable once it succeeds), then the mark-synced
step of lines 182-193.  That step can never complete: the UPDATE of line
184 opens a write transaction on local_conn, which then holds the single
SQLite write lock, and _save_sync_state (line 191, source lines 75-84)
writes through a second connection to the same database file, so its
INSERT deterministically raises sqlite3.OperationalError (database is
locked) once the busy timeout expires -- the one thread is inside the
second connection, so the lock can never be released.  The exception
aborts the cycle before either local commit: closing local_conn in the
finally block rolls back the UPDATE, leaving the local records and the
persisted cursor unchanged (line 190 updates self.last_synced_id only in
memory; it is never successfully persisted), while the already-committed
remote rows remain. -/
def syncAttempt (st : StoreState) (rem : RemoteState) (conn : ConnMode) (localFail : Bool) :
    Except PyExc Nat × StoreState × RemoteState :=
  if st.neon = false then (Except.ok 0, st, rem)
  else if localFail then (Except.error PyExc.sqliteOperational, st, rem)
  else
    let batch := fetchPending st 100
    if batch = [] then (Except.ok 0, st, rem)
    else if conn = ConnMode.offline then (Except.error PyExc.psycopgOperational, st, rem)
    else
      match runBatch (rem.rows.map RemoteRow.ts) conn 0 ⟨[], [], 0⟩ batch with
      | none => (Except.error PyExc.psycopgOperational, st, rem)
      | some acc =>
        if conn = ConnMode.failAtCommit then (Except.error PyExc.psycopgOperational, st, rem)
        else
          let rem2 : RemoteState := ⟨rem.rows ++ acc.buffer⟩
          if acc.syncedIds = [] then (Except.ok acc.count, st, rem2)
          else (Except.error PyExc.sqliteOperational, st, rem2)

/-- The sync_to_cloud call as seen by a Python caller: the body guarded by
the except clauses of lines 202-213 (sqlite3.OperationalError -- whose
own handler prints the database-is-locked message of line 204 --
psycopg2.OperationalError, Exception; together covering every modelled
exception), each returning 0 over whatever state is durable at that
point. -/
def syncCall (st : StoreState) (rem : RemoteState) (conn : ConnMode) (localFail : Bool) :
    Except PyExc (Nat × StoreState × RemoteState) :=
  pyTryState catchesException (syncAttempt st rem conn localFail) 0

/-- Value-level sync_to_cloud: returns the synced count and the resulting
local and remote states. -/
def syncToCloud (st : StoreState) (rem : RemoteState) (conn : ConnMode) (localFail : Bool) :
    Nat × StoreState × RemoteState :=
  runCall (syncCall st rem conn localFail) (0, st, rem)

/-- Embeds the local INSERT of log_sensor_data (db_logger.py lines 98-105):
a new row with the next AUTOINCREMENT id (strictly above every id ever
assigned, per sqlite_sequence) and synced = 0, committed locally. -/
def appendRecord (st : StoreState) (v : SensorValues) (now : DateTime) : StoreState :=
  { st with records := st.records ++ [⟨st.seq + 1, now, v, false⟩], seq := st.seq + 1 }

/-- Embeds the try block of log_sensor_data (db_logger.py lines 94-113):
local INSERT and commit (raising sqlite OperationalError on a local write
failure, modelled by the localFail oracle), then the synchronous call
self.sync_to_cloud() of line 111, then return of the local record id. -/
def logBody (st : StoreState) (rem : RemoteState) (v : SensorValues) (now : DateTime)
    (conn : ConnMode) (localFail : Bool) :
    Except PyExc (Option Nat × StoreState × RemoteState) :=
  if localFail then Except.error PyExc.sqliteOperational
  else
    let st1 := appendRecord st v now
    let r := syncToCloud st1 rem conn false
    Except.ok (some (st.seq + 1), r.2.1, r.2.2)

/-- The log_sensor_data call as seen by a Python caller: body guarded by
`except Exception` (lines 115-117) returning None. -/
def logCall (st : StoreState) (rem : RemoteState) (v : SensorValues) (now : DateTime)
    (conn : ConnMode) (localFail : Bool) :
    Except PyExc (Option Nat × StoreState × RemoteState) :=
  pyTry catchesException (logBody st rem v now conn localFail) (none, st, rem)

/-- Value-level log_sensor_data: returns the local record id (None on a
local write failure) and the resulting states. -/
def logSensorData (st : StoreState) (rem : RemoteState) (v : SensorValues) (now : DateTime)
    (conn : ConnMode) (localFail : Bool) :
    Option Nat × StoreState × RemoteState :=
  runCall (logCall st rem v now conn localFail) (none, st, rem)

/-- Embeds the try block of get_unsynced_count (db_logger.py lines 229-235). -/
def countBody (st : StoreState) (localFail : Bool) : Except PyExc Nat :=
  if localFail then Except.error PyExc.sqliteOperational
  else Except.ok (unsyncedCount st)

/-- The get_unsynced_count call: body guarded by `except Exception`
(lines 236-238) returning 0. -/
def countCall (st : StoreState) (localFail : Bool) : Except PyExc Nat :=
  pyTry catchesException (countBody st localFail) 0

/-- Value-level get_unsynced_count. -/
def getUnsyncedCount (st : StoreState) (localFail : Bool) : Nat :=
  runCall (countCall st localFail) 0

/-- Embeds the cutoff computation of cleanup_old_synced_records
(db_logger.py lines 246-248): utcnow truncated to midnight, then
`replace(day = day - days)`.  Python datetime.replace raises ValueError
when the new day is below 1 (for example on the 5th of the month with the
default days = 7), so the result is an Option. -/
def midnightMinusDays (now : DateTime) (days : Nat) : Option DateTime :=
  if now.day < days + 1 then none
  else some ⟨now.year, now.month, now.day - days, 0, 0, 0, 0⟩

/-- Embeds the try block of cleanup_old_synced_records (db_logger.py lines
242-262): local connect (localFail oracle), cutoff computation (possibly
raising ValueError), then `DELETE FROM sensor_data WHERE synced = 1 AND
ts_iso < cutoff` and the rowcount of deleted rows. -/
def cleanupBody (st : StoreState) (now : DateTime) (days : Nat) (localFail : Bool) :
    Except PyExc (StoreState × Nat) :=
  if localFail then Except.error PyExc.sqliteOperational
  else
    match midnightMinusDays now days with
    | none => Except.error PyExc.valueError
    | some cutoff =>
      let kept := st.records.filter (fun r => !(r.synced && decide (r.ts.key < cutoff.key)))
      Except.ok ({ st with records := kept }, st.records.length - kept.length)

/-- The cleanup_old_synced_records call: body guarded by `except Exception`
(lines 264-266) returning 0. -/
def cleanupCall (st : StoreState) (now : DateTime) (days : Nat) (localFail : Bool) :
    Except PyExc (StoreState × Nat) :=
  pyTry catchesException (cleanupBody st now days localFail) (st, 0)

/-- Value-level cleanup_old_synced_records: resulting state and number of
deleted rows. -/
def cleanupOldSyncedRecords (st : StoreState) (now : DateTime) (days : Nat)
    (localFail : Bool) : StoreState × Nat :=
  runCall (cleanupCall st now days localFail) (st, 0)

/-- One operation of the mark-synced step of sync_to_cloud (db_logger.py
lines 182-193), in program order: the UPDATE of the synced flags inside
the open transaction of local_conn (line 184), the in-memory cursor
assignment (line 190), the _save_sync_state write through a second
connection (line 191, source lines 75-84), and local_conn.commit()
(line 193). -/
inductive MarkOp where
  | localUpdate
  | memCursor
  | saveCursor
  | localCommit
deriving DecidableEq, Repr

/-- Execution state of the mark-synced step: the durable local store
(what a crash at this point would leave persisted), whether local_conn
holds an open write transaction (and with it the single SQLite write
lock), the uncommitted content of that transaction, and whether an
exception has already aborted the step. -/
structure MarkMachine where
  durable : StoreState
  txnOpen : Bool
  txnRecords : List Record
  raised : Bool
deriving DecidableEq, Repr

/-- Effect of one mark-step operation.  The UPDATE buffers the flag
changes in the open transaction of local_conn -- nothing durable.  The
in-memory cursor assignment is not durable.  The _save_sync_state write
goes through a second connection: while local_conn holds the write lock
it gets SQLITE_BUSY and raises sqlite3.OperationalError (database is
locked) without committing; only with no open transaction would it commit
the new cursor.  local_conn.commit() makes the buffered UPDATE durable --
but once an exception was raised the remaining operations of the step are
never executed (control jumps to the except clause, and closing
local_conn rolls back the open transaction). -/
def markStep (ids : List Nat) (m : MarkMachine) : MarkOp → MarkMachine
  | MarkOp.localUpdate =>
    if m.raised then m
    else { m with txnOpen := true, txnRecords := markIds m.durable.records ids }
  | MarkOp.memCursor => m
  | MarkOp.saveCursor =>
    if m.raised then m
    else if m.txnOpen then { m with raised := true }
    else { m with durable := { m.durable with lastSyncedId := ids.foldl max 0 } }
  | MarkOp.localCommit =>
    if m.raised then m
    else if m.txnOpen then
      { m with durable := { m.durable with records := m.txnRecords }, txnOpen := false }
    else m

/-- The mark-synced step as executed by sync_to_cloud when synced_ids is
nonempty (lines 183-193). -/
def markProgram : List MarkOp :=
  [MarkOp.localUpdate, MarkOp.memCursor, MarkOp.saveCursor, MarkOp.localCommit]

/-- Persisted local state after a crash k operations into the mark-synced
step entered at store state st with batch ids. -/
def markSyncedCrash (st : StoreState) (ids : List Nat) (k : Nat) : StoreState :=
  ((markProgram.take k).foldl (markStep ids) ⟨st, false, [], false⟩).durable

/-- Records whose synced flag is set. -/
def hasSynced (st : StoreState) : Bool :=
  st.records.any (fun r => r.synced)

/-- Largest id among records whose synced flag is set (0 when there is
none). -/
def maxSyncedId (st : StoreState) : Nat :=
  ((st.records.filter (fun r => r.synced)).map Record.id).foldl max 0

/-- World state: the local store plus the remote store. -/
abbrev World := StoreState × RemoteState

/-- Fresh DatabaseLogger over an empty database with a configured NEON
connection string (db_logger.py lines 12-30): empty table, AUTOINCREMENT
sequence 0, cursor 0. -/
def initWorld : World := (⟨[], 0, 0, true⟩, ⟨[]⟩)

/-- One invocation of a public operation of the store, with its oracle
inputs: the wall-clock time where the operation reads it, the remote
connectivity behaviour, and whether the local database access fails. -/
inductive Op where
  | append (v : SensorValues) (now : DateTime) (conn : ConnMode) (localFail : Bool)
  | sync (conn : ConnMode) (localFail : Bool)
  | count (localFail : Bool)
  | cleanup (now : DateTime) (days : Nat) (localFail : Bool)
  | restart
deriving Repr

/-- Effect of one operation on the world.  restart re-runs __init__ on the
existing database: _init_local_db leaves existing tables in place and
_load_sync_state reloads the persisted cursor, so the persisted world is
unchanged. -/
def runOp (w : World) : Op → World
  | Op.append v now conn lf => (logSensorData w.1 w.2 v now conn lf).2
  | Op.sync conn lf => (syncToCloud w.1 w.2 conn lf).2
  | Op.count _ => w
  | Op.cleanup now days lf => ((cleanupOldSyncedRecords w.1 now days lf).1, w.2)
  | Op.restart => w

/-- Ids handed back to the producer by one operation (log_sensor_data
returns cursor.lastrowid = seq + 1 on success, db_logger.py line 104). -/
def appendedIds (w : World) : Op → List Nat
  | Op.append _ _ _ lf => if lf then [] else [w.1.seq + 1]
  | _ => []

/-- Runs a list of operations, collecting every id returned to the
producer, in order. -/
def runOps : World → List Op → World × List Nat
  | w, [] => (w, [])
  | w, op :: ops =>
    let rest := runOps (runOp w op) ops
    (rest.1, appendedIds w op ++ rest.2)

/-- Worlds reachable from the fresh store by any sequence of public
operations. -/
inductive Reaches : World → Prop where
  | init : Reaches initWorld
  | step (w : World) (op : Op) : Reaches w → Reaches (runOp w op)

/-! Concrete inputs used by the closed theorems and witnesses below. -/

/-- Sample sensor reading passed to log_sensor_data. -/
def exVals : SensorValues := ⟨some 21, some 50, 0, 0, 0, "DISARMED", none⟩

/-- Timestamp on the 1st of October 2026 at second s. -/
def exTime (s : Nat) : DateTime := ⟨2026, 10, 1, 0, 0, s, 0⟩

/-- Local store for the duplicate-in-batch scenario: two pending records. -/
def dupSt : StoreState :=
  ⟨[⟨1, exTime 1, exVals, false⟩, ⟨2, exTime 2, exVals, false⟩], 2, 0, true⟩

/-- Remote store for the duplicate-in-batch scenario: the natural key of
local record 2 is already committed remotely. -/
def dupRem : RemoteState := ⟨[toRemoteRow ⟨2, exTime 2, exVals, false⟩]⟩

/-- Local store holding only record 1 of the duplicate-in-batch scenario,
used to contrast a batch without the duplicate record. -/
def soloSt : StoreState := ⟨[⟨1, exTime 1, exVals, false⟩], 1, 0, true⟩

/-- Local store with a single pending record of id 1. -/
def onePendingSt : StoreState := ⟨[⟨1, exTime 1, exVals, false⟩], 1, 0, true⟩

/-- Local store holding one Synced record from the 1st of September 2026,
cursor already at it. -/
def oldSyncedSt : StoreState :=
  ⟨[⟨1, ⟨2026, 9, 1, 0, 0, 0, 0⟩, exVals, true⟩], 1, 1, true⟩

/-- Five appends, in order, while the remote store is unreachable. -/
def fiveOfflineAppends : List Op :=
  [Op.append exVals (exTime 1) ConnMode.offline false,
   Op.append exVals (exTime 2) ConnMode.offline false,
   Op.append exVals (exTime 3) ConnMode.offline false,
   Op.append exVals (exTime 4) ConnMode.offline false,
   Op.append exVals (exTime 5) ConnMode.offline false]

/-- World after the five offline appends. -/
def fiveOfflineWorld : World := (runOps initWorld fiveOfflineAppends).1

/-- Tests whether a Python call returned normally (no exception escaped). -/
def exceptOk {α : Type} : Except PyExc α → Bool :=
  fun c =>
    match c with
    | Except.ok _ => true
    | Except.error _ => false

/-! Theorems. -/

/-- C1: the claim fails on the code.  With two pending records whose batch
hits a duplicate natural key on the second record, the
neon_conn.rollback() in the IntegrityError handler (line 173) discards
the still-uncommitted INSERT of record 1, so the remote store ends the
cycle without any row for record 1 even though record 1 was inserted
without error and counted in synced_ids: the rejection of record 2 did
undo the remote commit of record 1.  The same record 1 synced alone (no
duplicate in the batch) does land remotely, isolating the rollback as the
cause.  (The cycle then returns 0 with the local store unchanged, the
mark-synced step having failed on the locked database.) -/
theorem C1_duplicate_rollback_discards_prior_insert :
    ((syncToCloud dupSt dupRem ConnMode.online false).2.2.rows.map RemoteRow.ts) =
      [exTime 2] ∧
    exTime 1 ∉ ((syncToCloud dupSt dupRem ConnMode.online false).2.2.rows.map
      RemoteRow.ts) ∧
    (syncToCloud dupSt dupRem ConnMode.online false).1 = 0 ∧
    (syncToCloud dupSt dupRem ConnMode.online false).2.1 = dupSt ∧
    ((syncToCloud soloSt dupRem ConnMode.online false).2.2.rows.map RemoteRow.ts) =
      [exTime 2, exTime 1] := by decide

/-- C2: a crash at any point of the mark-synced step leaves exactly the
entry state persisted -- the none-transitioned, cursor-unchanged branch
of the claimed all-or-nothing disjunction.  No commit of the step ever
executes: the UPDATE of line 184 is buffered in the open transaction of
local_conn, _save_sync_state's write through a second connection raises
the database-is-locked OperationalError before its own commit (the write
lock being held by local_conn), and the exception prevents
local_conn.commit() from ever running, the rollback on close discarding
the UPDATE. -/
theorem C2_mark_step_crash_all_or_nothing (st : StoreState) (ids : List Nat) (k : Nat) :
    markSyncedCrash st ids k = st := by
  unfold markSyncedCrash markProgram
  match k with
  | 0 => rfl
  | 1 => rfl
  | 2 => rfl
  | 3 => rfl
  | n + 4 =>
    rw [List.take_of_length_le (by simp)]
    rfl

/-- C4 counterexample: log_sensor_data is not free of remote-store
activity before returning -- starting from an empty local and remote
store with connectivity online, the remote store has gained a row by the
time the append call returns. -/
theorem C4_append_performs_remote_activity :
    (logSensorData ⟨[], 0, 0, true⟩ ⟨[]⟩ exVals (exTime 1) ConnMode.online false).2.2
      ≠ (⟨[]⟩ : RemoteState) := by decide

/-- C4 amended: the local INSERT completes and the returned local id
(seq + 1) is determined before and independently of any remote activity,
for every connectivity behaviour; but log_sensor_data then synchronously
runs sync_to_cloud on the appended store before returning (line 111), so
the resulting world is the sync of the appended world and the producer
call does block on that sync. -/
theorem C4_amended_append_commits_locally_then_syncs (st : StoreState) (rem : RemoteState)
    (v : SensorValues) (now : DateTime) (conn : ConnMode) :
    (logSensorData st rem v now conn false).1 = some (st.seq + 1) ∧
    (logSensorData st rem v now conn false).2 =
      (syncToCloud (appendRecord st v now) rem conn false).2 :=
  ⟨rfl, rfl⟩

/-- C5: the claim fails on the code.  On the 5th of October 2026 with the
default 7-day horizon, replace(day = 5 - 7) raises ValueError (day out of
range), the blanket except returns 0 and nothing is deleted, although the
store holds a Synced record of the 1st of September 2026, which is older
than now minus 7 days (2026-09-28T12:00). -/
theorem C5_day_underflow_deletes_nothing :
    cleanupOldSyncedRecords oldSyncedSt ⟨2026, 10, 5, 12, 0, 0, 0⟩ 7 false =
      (oldSyncedSt, 0) ∧
    oldSyncedSt.records.all
      (fun r => r.synced && decide (r.ts.key < DateTime.key ⟨2026, 9, 28, 12, 0, 0, 0⟩))
      = true := by decide

/-- C9: the claim fails on the code.  Five appends with ids 1 to 5 while
the remote store is offline do leave all five Pending with the remote
store empty, fetchPending 10 returns them in ascending id order and the
unsynced count is 5; one online sync cycle does leave the remote store
with exactly 5 rows bearing the five natural keys -- but the cycle then
returns 0, all five records stay Pending (unsynced count still 5) and the
persisted cursor stays 0, because the mark-synced step fails
deterministically on the locked database and is rolled back. -/
theorem C9_five_offline_appends_then_one_sync :
    (fetchPending fiveOfflineWorld.1 10).map Record.id = [1, 2, 3, 4, 5] ∧
    unsyncedCount fiveOfflineWorld.1 = 5 ∧
    fiveOfflineWorld.2.rows = [] ∧
    ((syncToCloud fiveOfflineWorld.1 fiveOfflineWorld.2 ConnMode.online false).2.2.rows.map
      RemoteRow.ts) = [exTime 1, exTime 2, exTime 3, exTime 4, exTime 5] ∧
    (syncToCloud fiveOfflineWorld.1 fiveOfflineWorld.2 ConnMode.online false).2.2.rows.length
      = 5 ∧
    (syncToCloud fiveOfflineWorld.1 fiveOfflineWorld.2 ConnMode.online false).1 = 0 ∧
    unsyncedCount (syncToCloud fiveOfflineWorld.1 fiveOfflineWorld.2 ConnMode.online
      false).2.1 = 5 ∧
    (syncToCloud fiveOfflineWorld.1 fiveOfflineWorld.2 ConnMode.online false).2.1.lastSyncedId
      = 0 := by decide

/-- C6: cleanup_old_synced_records never deletes a Pending record -- its
DELETE carries the conjunct synced = 1, and on every error path the table
is untouched -- so every record with synced = 0 is still present
afterwards, for every state, date, horizon and failure oracle. -/
theorem C6_cleanup_never_deletes_pending (st : StoreState) (now : DateTime) (days : Nat)
    (lf : Bool) (r : Record) (hr : r ∈ st.records) (hp : r.synced = false) :
    r ∈ (cleanupOldSyncedRecords st now days lf).1.records := by
  unfold cleanupOldSyncedRecords cleanupCall cleanupBody midnightMinusDays
  cases lf with
  | true => simpa [pyTry, runCall, catchesException] using hr
  | false =>
    by_cases hday : now.day < days + 1
    · simpa [pyTry, runCall, catchesException, hday] using hr
    · simp only [pyTry, runCall, catchesException, hday, if_false, if_neg, Bool.false_eq_true,
        ite_false]
      simp only [List.mem_filter]
      exact ⟨hr, by simp [hp]⟩

/-- Witness for C6 at a concrete store: the single Pending record of
onePendingSt survives a cleanup with a 7-day horizon. -/
theorem C6_witness :
    (⟨1, exTime 1, exVals, false⟩ : Record) ∈ onePendingSt.records ∧
    (⟨1, exTime 1, exVals, false⟩ : Record) ∈
      (cleanupOldSyncedRecords onePendingSt (exTime 1) 7 false).1.records :=
  ⟨by decide,
    C6_cleanup_never_deletes_pending onePendingSt (exTime 1) 7 false _ (by decide) rfl⟩

/-- Connection loss at the j-th record of the batch makes the per-record
loop raise OperationalError (propagate as none) whenever j indexes into
the remaining batch. -/
theorem runBatch_fails (keys : List DateTime) (j : Nat) :
    ∀ (batch : List Record) (i : Nat) (acc : LoopAcc), i ≤ j → j < i + batch.length →
      runBatch keys (ConnMode.failAtRecord j) i acc batch = none := by
  intro batch
  induction batch with
  | nil =>
    intro i acc h1 h2
    simp only [List.length_nil] at h2
    omega
  | cons r rs ih =>
    intro i acc h1 h2
    by_cases hij : i = j
    · subst hij
      simp [runBatch]
    · have hne : ¬ (ConnMode.failAtRecord j = ConnMode.failAtRecord i) := by
        simp [Ne.symm hij]
      simp only [runBatch, if_neg hne]
      have h1' : i + 1 ≤ j := by omega
      have h2' : j < (i + 1) + rs.length := by
        simp only [List.length_cons] at h2
        omega
      split
      · exact ih (i + 1) _ h1' h2'
      · exact ih (i + 1) _ h1' h2'

/-- C7: when reaching or writing to the remote store fails with a
connectivity error -- unreachable at connect time, connection lost at any
record of the batch, or lost at the final commit -- sync_to_cloud returns
0 and both the local store (records and cursor) and the remote store are
unchanged. -/
theorem C7_connectivity_failure_changes_nothing (st : StoreState) (rem : RemoteState)
    (conn : ConnMode) (lf : Bool)
    (hc : conn = ConnMode.offline ∨ conn = ConnMode.failAtCommit ∨
      ∃ j, conn = ConnMode.failAtRecord j ∧ j < (fetchPending st 100).length) :
    syncToCloud st rem conn lf = (0, st, rem) := by
  unfold syncToCloud syncCall syncAttempt
  cases hn : st.neon with
  | false => simp [pyTryState, runCall]
  | true =>
    cases lf with
    | true => simp [pyTryState, runCall, catchesException]
    | false =>
      by_cases hb : fetchPending st 100 = []
      · simp [pyTryState, runCall, catchesException, hb]
      · rcases hc with hc | hc | ⟨j, hcj, hj⟩
        · subst hc
          simp [pyTryState, runCall, catchesException, hb]
        · subst hc
          cases hrb : runBatch (rem.rows.map RemoteRow.ts) ConnMode.failAtCommit 0
              ⟨[], [], 0⟩ (fetchPending st 100) with
          | none => simp [pyTryState, runCall, catchesException, hb, hrb]
          | some acc => simp [pyTryState, runCall, catchesException, hb, hrb]
        · subst hcj
          have hoff : ¬ (ConnMode.failAtRecord j = ConnMode.offline) := by simp
          have hrb := runBatch_fails (rem.rows.map RemoteRow.ts) j (fetchPending st 100) 0
            ⟨[], [], 0⟩ (Nat.zero_le j) (by simpa using hj)
          simp [pyTryState, runCall, catchesException, hoff, hb, hrb]

/-- Witness for C7: one pending record, remote unreachable at connect
time -- nothing changes and 0 is reported. -/
theorem C7_witness :
    syncToCloud onePendingSt dupRem ConnMode.offline false = (0, onePendingSt, dupRem) :=
  C7_connectivity_failure_changes_nothing onePendingSt dupRem ConnMode.offline false
    (Or.inl rfl)

/-- A body guarded by a clause catching every modelled exception never
lets one escape. -/
theorem pyTry_catchall_ok {α : Type} (b : Except PyExc α) (fb : α) :
    exceptOk (pyTry catchesException b fb) = true := by
  cases b <;> rfl

/-- The state-carrying form: a body guarded by a clause catching every
modelled exception never lets one escape. -/
theorem pyTryState_catchall_ok {α σ : Type} (b : Except PyExc α × σ) (fb : α) :
    exceptOk (pyTryState catchesException b fb) = true := by
  rcases b with ⟨exc, s⟩
  cases exc <;> rfl

/-- C10: none of the four public operations ever propagates an exception
to its caller -- every modelled internal failure is caught by the except
clauses of the source -- and on a local database failure log_sensor_data
returns None while sync_to_cloud, get_unsynced_count and
cleanup_old_synced_records return 0, each leaving the stores unchanged. -/
theorem C10_public_calls_never_raise (st : StoreState) (rem : RemoteState)
    (v : SensorValues) (now nowc : DateTime) (conn : ConnMode) (lf : Bool) (days : Nat) :
    exceptOk (logCall st rem v now conn lf) = true ∧
    exceptOk (syncCall st rem conn lf) = true ∧
    exceptOk (countCall st lf) = true ∧
    exceptOk (cleanupCall st nowc days lf) = true ∧
    (lf = true →
      logCall st rem v now conn lf = Except.ok (none, st, rem) ∧
      syncCall st rem conn lf = Except.ok (0, st, rem) ∧
      countCall st lf = Except.ok 0 ∧
      cleanupCall st nowc days lf = Except.ok (st, 0)) := by
  refine ⟨pyTry_catchall_ok _ _, pyTryState_catchall_ok _ _, pyTry_catchall_ok _ _,
    pyTry_catchall_ok _ _, ?_⟩
  intro h
  subst h
  refine ⟨rfl, ?_, rfl, rfl⟩
  cases hn : st.neon <;> simp [syncCall, syncAttempt, pyTryState, catchesException, hn]

/-- Witness for C10 at concrete inputs with a failing local database. -/
theorem C10_witness :
    exceptOk (logCall onePendingSt dupRem exVals (exTime 1) ConnMode.online true) = true ∧
    exceptOk (syncCall onePendingSt dupRem ConnMode.online true) = true ∧
    exceptOk (countCall onePendingSt true) = true ∧
    exceptOk (cleanupCall onePendingSt (exTime 2) 7 true) = true ∧
    logCall onePendingSt dupRem exVals (exTime 1) ConnMode.online true =
      Except.ok (none, onePendingSt, dupRem) ∧
    syncCall onePendingSt dupRem ConnMode.online true = Except.ok (0, onePendingSt, dupRem) ∧
    countCall onePendingSt true = Except.ok 0 ∧
    cleanupCall onePendingSt (exTime 2) 7 true = Except.ok (onePendingSt, 0) := by
  have h := C10_public_calls_never_raise onePendingSt dupRem exVals (exTime 1) (exTime 2)
    ConnMode.online true 7
  have h5 := h.2.2.2.2 rfl
  exact ⟨h.1, h.2.1, h.2.2.1, h.2.2.2.1, h5.1, h5.2.1, h5.2.2.1, h5.2.2.2⟩

/-! Helper lemmas about the sync and cleanup calls and about operation
runs, used for the C3 and C8 theorems. -/

theorem syncAttempt_local (st : StoreState) (rem : RemoteState) (conn : ConnMode)
    (lf : Bool) : (syncAttempt st rem conn lf).2.1 = st := by
  unfold syncAttempt
  cases hn : st.neon with
  | false => rfl
  | true =>
    cases lf with
    | true => rfl
    | false =>
      by_cases hb : fetchPending st 100 = []
      · simp [hb]
      · by_cases hoff : conn = ConnMode.offline
        · simp [hb, hoff]
        · cases hrb : runBatch (rem.rows.map RemoteRow.ts) conn 0 ⟨[], [], 0⟩
              (fetchPending st 100) with
          | none => simp [hb, hoff, hrb]
          | some acc =>
            by_cases hfc : conn = ConnMode.failAtCommit
            · subst hfc
              simp [hb, hoff, hrb]
            · by_cases hsi : acc.syncedIds = []
              · simp [hb, hoff, hrb, hfc, hsi]
              · simp [hb, hoff, hrb, hfc, hsi]

/-- sync_to_cloud never changes the durable local store: every
connectivity failure is caught before the local UPDATE, and the
mark-synced step always aborts on the locked database with its open
transaction rolled back. -/
theorem sync_local_unchanged (st : StoreState) (rem : RemoteState) (conn : ConnMode)
    (lf : Bool) : (syncToCloud st rem conn lf).2.1 = st := by
  have h := syncAttempt_local st rem conn lf
  unfold syncToCloud runCall syncCall pyTryState
  cases hx : syncAttempt st rem conn lf with
  | mk exc str =>
    rw [hx] at h
    cases exc with
    | ok n => exact h
    | error e => simpa [catchesException] using h

/-- The AUTOINCREMENT sequence is untouched by sync_to_cloud. -/
theorem sync_seq (st : StoreState) (rem : RemoteState) (conn : ConnMode) (lf : Bool) :
    (syncToCloud st rem conn lf).2.1.seq = st.seq :=
  congrArg StoreState.seq (sync_local_unchanged st rem conn lf)

/-- Shape of the state resulting from cleanup_old_synced_records: either
the table is untouched (local failure or ValueError from the day
arithmetic), or it is filtered by the DELETE predicate for some cutoff. -/
theorem cleanup_state (st : StoreState) (now : DateTime) (days : Nat) (lf : Bool) :
    (cleanupOldSyncedRecords st now days lf).1 = st ∨
    ∃ cutoff : DateTime,
      (cleanupOldSyncedRecords st now days lf).1 =
        { st with records :=
            st.records.filter (fun r => !(r.synced && decide (r.ts.key < cutoff.key))) } := by
  unfold cleanupOldSyncedRecords cleanupCall cleanupBody midnightMinusDays
  cases lf with
  | true => left; simp [pyTry, runCall, catchesException]
  | false =>
    by_cases hday : now.day < days + 1
    · left; simp [pyTry, runCall, catchesException, hday]
    · right
      refine ⟨⟨now.year, now.month, now.day - days, 0, 0, 0, 0⟩, ?_⟩
      simp [pyTry, runCall, catchesException, hday]

/-- The cursor is untouched by cleanup_old_synced_records. -/
theorem cleanup_cursor (st : StoreState) (now : DateTime) (days : Nat) (lf : Bool) :
    (cleanupOldSyncedRecords st now days lf).1.lastSyncedId = st.lastSyncedId := by
  rcases cleanup_state st now days lf with heq | ⟨c, heq⟩ <;> rw [heq]

/-- The AUTOINCREMENT sequence is untouched by cleanup_old_synced_records
(SQLite keeps sqlite_sequence across DELETEs). -/
theorem cleanup_seq (st : StoreState) (now : DateTime) (days : Nat) (lf : Bool) :
    (cleanupOldSyncedRecords st now days lf).1.seq = st.seq := by
  rcases cleanup_state st now days lf with heq | ⟨c, heq⟩ <;> rw [heq]

/-- No public operation ever changes the persisted cursor: sync never
reaches a successful mark step, and the other operations do not write the
sync_state row. -/
theorem runOp_cursor_eq (w : World) (op : Op) :
    (runOp w op).1.lastSyncedId = w.1.lastSyncedId := by
  cases op with
  | append v now conn lf =>
    cases lf with
    | true => rfl
    | false =>
      have hx : (runOp w (Op.append v now conn false)).1 = appendRecord w.1 v now :=
        sync_local_unchanged (appendRecord w.1 v now) w.2 conn false
      rw [hx]
      rfl
  | sync conn lf => exact congrArg StoreState.lastSyncedId (sync_local_unchanged w.1 w.2 conn lf)
  | count lf => rfl
  | cleanup now days lf => exact cleanup_cursor w.1 now days lf
  | restart => rfl

/-- On every reachable world the persisted cursor still holds its initial
value 0 (the mark-synced step, the only writer of the sync_state row,
never completes). -/
theorem reaches_cursor (w : World) (h : Reaches w) : w.1.lastSyncedId = 0 := by
  induction h with
  | init => rfl
  | step w op hw ih =>
    rw [runOp_cursor_eq w op]
    exact ih

/-- C3: after every completed public operation on a reachable world, the
persisted cursor has not decreased and is at most the maximum local id
among Synced records.  In this program the cursor in fact never leaves 0
and no record is ever durably marked Synced (the mark-synced step always
fails on the locked database and is rolled back), so both bounds hold. -/
theorem C3_cursor_monotone_and_bounded (w : World) (op : Op) (h : Reaches w) :
    w.1.lastSyncedId ≤ (runOp w op).1.lastSyncedId ∧
    (runOp w op).1.lastSyncedId ≤ maxSyncedId (runOp w op).1 := by
  have h1 := reaches_cursor w h
  have h2 := reaches_cursor (runOp w op) (Reaches.step w op h)
  rw [h1, h2]
  exact ⟨Nat.le_refl 0, Nat.zero_le _⟩

/-- Witness for C3 at the fresh store and a concrete operation. -/
theorem C3_witness :
    initWorld.1.lastSyncedId ≤ (runOp initWorld (Op.count false)).1.lastSyncedId ∧
    (runOp initWorld (Op.count false)).1.lastSyncedId ≤
      maxSyncedId (runOp initWorld (Op.count false)).1 :=
  C3_cursor_monotone_and_bounded initWorld (Op.count false) Reaches.init

/-- The AUTOINCREMENT sequence never decreases across any operation. -/
theorem runOp_seq_mono (w : World) (op : Op) : w.1.seq ≤ (runOp w op).1.seq := by
  cases op with
  | append v now conn lf =>
    cases lf with
    | true => exact Nat.le_refl _
    | false =>
      have hx : (runOp w (Op.append v now conn false)).1.seq =
          (appendRecord w.1 v now).seq := sync_seq (appendRecord w.1 v now) w.2 conn false
      rw [hx]
      exact Nat.le_succ _
  | sync conn lf => exact Nat.le_of_eq (sync_seq w.1 w.2 conn lf).symm
  | count lf => exact Nat.le_refl _
  | cleanup now days lf => exact Nat.le_of_eq (cleanup_seq w.1 now days lf).symm
  | restart => exact Nat.le_refl _

/-- A successful append advances the sequence by exactly one. -/
theorem runOp_append_seq (w : World) (v : SensorValues) (now : DateTime)
    (conn : ConnMode) :
    (runOp w (Op.append v now conn false)).1.seq = w.1.seq + 1 :=
  sync_seq (appendRecord w.1 v now) w.2 conn false

/-- Every id handed out during a run is strictly above the sequence value
at the start of the run. -/
theorem runOps_ids_gt (ops : List Op) :
    ∀ w : World, ∀ i ∈ (runOps w ops).2, w.1.seq < i := by
  induction ops with
  | nil =>
    intro w i hi
    simp [runOps] at hi
  | cons op ops ih =>
    intro w i hi
    simp only [runOps] at hi
    rcases List.mem_append.mp hi with hi | hi
    · cases op with
      | append v now conn lf =>
        cases lf with
        | true => simp [appendedIds] at hi
        | false =>
          simp [appendedIds] at hi
          omega
      | sync conn lf => simp [appendedIds] at hi
      | count lf => simp [appendedIds] at hi
      | cleanup now days lf => simp [appendedIds] at hi
      | restart => simp [appendedIds] at hi
    · exact Nat.lt_of_le_of_lt (runOp_seq_mono w op) (ih (runOp w op) i hi)

/-- C8: along every run of public operations from the fresh store, the
local ids handed back to the producer by successful appends form a
strictly increasing sequence -- each returned id is strictly greater than
every id returned earlier in the run, across retention deletions and
process restarts, so ids are unique and never reused over the lifetime of
the store. -/
theorem C8_ids_strictly_increasing_over_lifetime (ops : List Op) :
    List.Pairwise (fun a b : Nat => a < b) (runOps initWorld ops).2 := by
  have main : ∀ (ops2 : List Op) (w : World),
      List.Pairwise (fun a b : Nat => a < b) (runOps w ops2).2 := by
    intro ops2
    induction ops2 with
    | nil =>
      intro w
      simp [runOps]
    | cons op ops2 ih =>
      intro w
      simp only [runOps]
      refine List.pairwise_append.mpr ⟨?_, ih (runOp w op), ?_⟩
      · cases op with
        | append v now conn lf => cases lf <;> simp [appendedIds]
        | sync conn lf => simp [appendedIds]
        | count lf => simp [appendedIds]
        | cleanup now days lf => simp [appendedIds]
        | restart => simp [appendedIds]
      · intro a ha b hb
        have hb2 : (runOp w op).1.seq < b := runOps_ids_gt ops2 (runOp w op) b hb
        cases op with
        | append v now conn lf =>
          cases lf with
          | true => simp [appendedIds] at ha
          | false =>
            simp [appendedIds] at ha
            subst ha
            have hx := runOp_append_seq w v now conn
            omega
        | sync conn lf => simp [appendedIds] at ha
        | count lf => simp [appendedIds] at ha
        | cleanup now days lf => simp [appendedIds] at ha
        | restart => simp [appendedIds] at ha
  exact main ops initWorld

end HomeGuard
